import Mathlib

/-!
Verification development for the MTGA deck-builder backend.

Shallow embedding of the deck data model (`backend/app/models/schemas.py`),
the statistics / mana-base engine (`backend/app/utils/utils.py`) and the
agent workflow steps (`backend/app/agents/*.py`).  Python integers are
modelled as `Int` (or `Nat` where the source value is a count that is only
ever incremented), Python floats as `Rat` (the claims under study do not
depend on rounding), raised Python exceptions as `Except` errors, and the
`collections.Counter` dictionaries as insertion-ordered association lists.
-/

namespace MTGA

/-- Python exception kinds raised by the embedded code paths. -/
inductive PyError
  | zeroDivisionError
  | attributeError
  | indexError
  | typeError
  | jsonDecodeError
  | keyError
deriving Repr, DecidableEq

/-! ### Counter: insertion-ordered association list, as Python dict/Counter -/

/-- `counter[k] += v` on a Python `Counter`: update the existing entry in
place, else append a fresh entry at the end (dict insertion order). -/
def counterAdd [DecidableEq α] [Add β] (k : α) (v : β) : List (α × β) → List (α × β)
  | [] => [(k, v)]
  | (k', v') :: rest =>
    if k = k' then (k', v' + v) :: rest else (k', v') :: counterAdd k v rest

/-- `counter.get(k, dflt)` on a Python dict. -/
def counterGet [DecidableEq α] (m : List (α × β)) (k : α) (dflt : β) : β :=
  match m.find? (fun p => decide (p.1 = k)) with
  | some p => p.2
  | none => dflt

/-- Whether `pat` is an initial segment of `s`. -/
def charsLead : List Char → List Char → Bool
  | [], _ => true
  | _ :: _, [] => false
  | p :: ps, c :: cs => p == c && charsLead ps cs

/-- Whether `pat` occurs as a contiguous segment of `s`. -/
def charsHold (pat : List Char) : List Char → Bool
  | [] => charsLead pat []
  | c :: cs => charsLead pat (c :: cs) || charsHold pat cs

/-- Python's `pat in s` substring test. -/
def strContains (s pat : String) : Bool :=
  charsHold pat.toList s.toList

/-! ### ManaCost (schemas.py, `ManaCost.from_string`) -/

/-- The five Magic color symbols, in the order the source iterates them. -/
def manaColors : List Char := ['W', 'U', 'B', 'R', 'G']

/-- `int(symbol)` for a single decimal digit character. -/
def digitVal (c : Char) : Nat := c.toNat - '0'.toNat

/-- `ManaCost` from schemas.py: total, per-color counts, generic component. -/
structure ManaCost where
  total : Nat
  colored : List (Char × Nat)
  generic : Nat
deriving Repr, DecidableEq

/-- `ManaCost.from_string`: `colored = {color: mana_cost.count(color) for color in 'WUBRG'}`,
`generic = sum(int(symbol) for symbol in mana_cost if symbol.isdigit())`,
`total = sum(colored.values()) + generic`. -/
def ManaCost.from_string (s : String) : ManaCost :=
  let colored := manaColors.map (fun c => (c, s.toList.count c))
  let generic := ((s.toList.filter Char.isDigit).map digitVal).sum
  { total := (colored.map Prod.snd).sum + generic
    colored := colored
    generic := generic }

/-! ### Cards and decks (schemas.py `CardBase` / `DeckBase`) -/

/-- A card inside a deck (`CardBase` in schemas.py).  The color attribute is
`color_identity`; no card model in the repository defines a `colors`
attribute, which is why the statistics loop's `card.colors` read raises
`AttributeError` (see `statsFold`). -/
structure CardBase where
  name : String
  quantity : Int
  cmc : Rat
  type_line : String
  color_identity : List String
  role : Option String
  mana_cost : Option ManaCost
deriving Repr, DecidableEq

/-- `DeckStatistics` from schemas.py (`mana_sources_by_color` is declared
`Dict[str, int]` there). -/
structure DeckStatistics where
  average_cmc : Rat
  color_distribution : List (String × Rat)
  type_distribution : List (String × Int)
  role_distribution : List (String × Int)
  mana_sources_by_color : List (String × Int)
  curve : List (Int × Int)
deriving Repr, DecidableEq

/-- `DeckBase` from schemas.py. -/
structure DeckBase where
  name : String := ""
  format : String := ""
  description : Option String := none
  colors : List String := []
  strategy_tags : List String := []
  main_deck : List CardBase := []
  sideboard : List CardBase := []
  lands : List CardBase := []
  statistics : Option DeckStatistics := none
  total_cards : Int := 60
deriving Repr, DecidableEq

/-- The fixed basic-land exemption set from schemas.py. -/
def basic_lands : List String := ["Plains", "Island", "Swamp", "Mountain", "Forest"]

/-- Total quantity over a list of card entries. -/
def sumQuantities (cards : List CardBase) : Int :=
  (cards.map CardBase.quantity).sum

/-- `DeckBase.validate_deck`: soft validation returning collected issues. -/
def DeckBase.validate_deck (d : DeckBase) : List String :=
  let all_mainboard := d.main_deck ++ d.lands
  let total_mainboard := sumQuantities all_mainboard
  let sizeIssues :=
    if total_mainboard < 60 then
      ["Deck must have at least 60 cards (currently " ++ toString total_mainboard ++ ")"]
    else []
  let copyIssues :=
    (all_mainboard.filter
      (fun c => decide (4 < c.quantity) && !(basic_lands.contains c.name))).map
      (fun c => "Too many copies of " ++ c.name ++ " (" ++ toString c.quantity ++ "/4)")
  let sideboard_total := sumQuantities d.sideboard
  let sbIssues :=
    if 15 < sideboard_total then
      ["Sideboard must have at most 15 cards (currently " ++ toString sideboard_total ++ ")"]
    else []
  sizeIssues ++ copyIssues ++ sbIssues

/-- Aggregate per-name quantities over the mainboard, in first-seen order
(the `card_counts` dict of `validate_deck_rules`). -/
def cardCounts (cards : List CardBase) : List (String × Int) :=
  cards.foldl (fun acc c => counterAdd c.name c.quantity acc) []

/-- The basic-land test of `validate_deck_rules` rule 2: name in the fixed
set, else the type line of the first card with that name contains
`Basic Land`. -/
def isBasicLandName (all_mainboard : List CardBase) (card_name : String) : Bool :=
  basic_lands.contains card_name ||
    (match all_mainboard.find? (fun c => decide (c.name = card_name)) with
     | some c => strContains c.type_line "Basic Land"
     | none => false)

/-- First per-name copy-limit violation (rule 2 of `validate_deck_rules`). -/
def copyViolation (all_mainboard : List CardBase) : List (String × Int) → Option String
  | [] => none
  | (n, q) :: rest =>
    if decide (4 < q) && !(isBasicLandName all_mainboard n) then
      some ("Too many copies of \x27" ++ n ++ "\x27 (" ++ toString q ++
        "). Maximum 4 copies allowed (except basic lands)")
    else copyViolation all_mainboard rest

/-- Python `repr` of a list of strings, as interpolated into rule-4's message. -/
def pyStrListRepr (l : List String) : String :=
  "[" ++ String.intercalate ", " (l.map (fun s => "\x27" ++ s ++ "\x27")) ++ "]"

/-- First color-identity violation (rule 4 of `validate_deck_rules`): only
checked when the deck declares colors, and only for cards with a non-empty
color identity. -/
def colorViolation (deck_colors : List String) : List CardBase → Option String
  | [] => none
  | c :: rest =>
    if c.color_identity ≠ [] ∧ ¬ (∀ x ∈ c.color_identity, x ∈ deck_colors) then
      some ("Card \x27" ++ c.name ++ "\x27 has colors " ++ pyStrListRepr c.color_identity ++
        " that are not in deck colors " ++ pyStrListRepr deck_colors)
    else colorViolation deck_colors rest

/-- The pydantic model validator `validate_deck_rules` run at `DeckBase`
construction: raises (returns `.error`) on the first violated rule, else
returns the deck with `total_cards` updated. -/
def DeckBase.validate_deck_rules (d : DeckBase) : Except String DeckBase :=
  let all_mainboard := d.main_deck ++ d.lands
  let total_mainboard := sumQuantities all_mainboard
  if total_mainboard < 60 then
    .error ("Deck must have at least 60 cards in mainboard (currently " ++
      toString total_mainboard ++ ")")
  else
    match copyViolation all_mainboard (cardCounts all_mainboard) with
    | some msg => .error msg
    | none =>
      let sideboard_total := sumQuantities d.sideboard
      if 15 < sideboard_total then
        .error ("Sideboard must have at most 15 cards (currently " ++
          toString sideboard_total ++ ")")
      else
        if d.colors ≠ [] then
          match colorViolation d.colors (all_mainboard ++ d.sideboard) with
          | some msg => .error msg
          | none => .ok { d with total_cards := total_mainboard }
        else .ok { d with total_cards := total_mainboard }

/-! ### Statistics engine (utils.py `calculate_deck_statistics`) -/

/-- Accumulator for the single pass over `all_cards` in
`calculate_deck_statistics` (the five Counters the loop would fill). -/
structure StatsAcc where
  color_dist : List (String × Rat)
  type_dist : List (String × Int)
  role_dist : List (String × Int)
  curve : List (Int × Int)
deriving Repr, DecidableEq

/-- The `for card in all_cards` loop of `calculate_deck_statistics`.  Its
first statement, `for color in card.colors`, reads an attribute that neither
`schemas.CardBase` (which has `color_identity`) nor `models.card.Card`
defines, so the loop raises `AttributeError` on its first card; the rest of
the body (`type_line`, `role.value` — itself a plain `str` under
`use_enum_values`, `mana_cost.total`) is unreachable. -/
def statsFold (_total_cards : Nat) : List CardBase → StatsAcc → Except PyError StatsAcc
  | [], acc => .ok acc
  | _card :: _rest, _acc => .error .attributeError

/-- `non_land_cards` of `calculate_deck_statistics`: main-deck cards whose
type line does not contain `Land`. -/
def non_land_cards (deck : DeckBase) : List CardBase :=
  deck.main_deck.filter (fun c => !(strContains c.type_line "Land"))

/-- `calculate_deck_statistics` from utils.py.  The average-CMC line divides
by the summed quantity of `non_land_cards`; a zero denominator is Python's
`ZeroDivisionError`.  Otherwise the statistics loop raises `AttributeError`
at `card.colors` (see `statsFold`), so the function never returns: the
continuation after the loop — `mana_sources.update(deck.lands)`, which would
raise `TypeError` on the unhashable pydantic card objects — is modelled for
totality but is unreachable, because a non-zero denominator forces a
non-empty `main_deck` and hence a non-empty `all_cards`. -/
def calculate_deck_statistics (deck : DeckBase) : Except PyError DeckStatistics :=
  let all_cards := deck.main_deck ++ deck.lands
  let total_cards := all_cards.length
  let denom := sumQuantities (non_land_cards deck)
  if denom = 0 then .error .zeroDivisionError
  else
    let avg_cmc :=
      ((non_land_cards deck).map (fun c => c.cmc * (c.quantity : Rat))).sum / (denom : Rat)
    match statsFold total_cards all_cards ⟨[], [], [], []⟩ with
    | .error e => .error e
    | .ok acc =>
      match deck.lands with
      | _ :: _ => .error .typeError
      | [] =>
        .ok { average_cmc := avg_cmc
              color_distribution := acc.color_dist
              type_distribution := acc.type_dist
              role_distribution := acc.role_dist
              mana_sources_by_color := []
              curve := acc.curve }

/-- `validate_mana_base` from utils.py: per-color sufficiency against
`max(20*share, 14*share)` over the color distribution, then a flat
land-count check on `len(deck.lands)`; any exception from
`calculate_deck_statistics` propagates. -/
def validate_mana_base (deck : DeckBase) : Except PyError (List String) :=
  match calculate_deck_statistics deck with
  | .error e => .error e
  | .ok stats =>
    let colorIssues :=
      (stats.color_distribution.filter
        (fun p =>
          decide (((counterGet stats.mana_sources_by_color p.1 0 : Int) : Rat) <
            max (20 * p.2) (14 * p.2)))).map
        (fun p => "Insufficient " ++ p.1 ++ " mana sources")
    let total_lands := deck.lands.length
    let landIssues :=
      if total_lands < 20 then ["Too few lands"]
      else if 28 < total_lands then ["Too many lands"]
      else []
    .ok (colorIssues ++ landIssues)

/-- The mana-source count the specification describes: the number of land
entries whose declared color identity includes the color.  (Stated from the
spec to compare with the source's statistic.) -/
def specManaSourcesByColor (deck : DeckBase) (color : String) : Nat :=
  (deck.lands.filter (fun c => c.color_identity.contains color)).length

/-! ### Optimizer suggestion application (deck_optimizer_agent.py) -/

/-- A `cards_to_remove` / `cards_to_add` entry. -/
structure CardSuggestion where
  name : String
  reason : String
deriving Repr, DecidableEq

/-- A `quantity_adjustments` entry. -/
structure QuantityAdjustment where
  name : String
  change : Int
  reason : String
deriving Repr, DecidableEq

/-- The Optimizer's `suggestions` object. -/
structure OptSuggestions where
  cards_to_remove : List CardSuggestion
  cards_to_add : List CardSuggestion
  quantity_adjustments : List QuantityAdjustment
deriving Repr, DecidableEq

/-- One removal: drop every entry with the name from `main_deck` and `lands`. -/
def applyRemoval (deck : DeckBase) (r : CardSuggestion) : DeckBase :=
  { deck with
    main_deck := deck.main_deck.filter (fun c => c.name != r.name)
    lands := deck.lands.filter (fun c => c.name != r.name) }

/-- One quantity adjustment: `card.quantity += change` for every matching
entry in `main_deck` and `lands`. -/
def applyAdjustment (deck : DeckBase) (a : QuantityAdjustment) : DeckBase :=
  { deck with
    main_deck := deck.main_deck.map
      (fun c => if c.name = a.name then { c with quantity := c.quantity + a.change } else c)
    lands := deck.lands.map
      (fun c => if c.name = a.name then { c with quantity := c.quantity + a.change } else c) }

/-- `_apply_optimization_suggestions`: all removals first, then all quantity
adjustments (additions are left unimplemented in the source). -/
def apply_optimization_suggestions (deck : DeckBase) (s : OptSuggestions) : DeckBase :=
  s.quantity_adjustments.foldl applyAdjustment (s.cards_to_remove.foldl applyRemoval deck)

/-! ### Workflow state and stage handlers (agents/*.py)

Each handler's LLM invocation is the sole external call; its parsed result
is passed in as a parameter (`Option` = whether `json.loads` succeeds), so
the handlers below embed everything from the parse onward.
-/

/-- `DeckRequirements` from schemas.py (`archetype` is the enum's `.value`). -/
structure DeckRequirements where
  colors : List String
  strategy : String
  format : String
  archetype : String
  min_creatures : Option Int := none
  max_creatures : Option Int := none
  min_lands : Option Int := none
  max_lands : Option Int := none
  required_cards : Option (List String) := none
  excluded_cards : Option (List String) := none
  budget_limit : Option Rat := none
  constraints : Option String := none
deriving Repr, DecidableEq

/-- The Strategist's parsed output object (`strategy_details`): the fields
later stages read (`main_gameplan`, `card_ratios` with per-category min/max
ranges) plus the rest of the declared schema. -/
structure StrategyDetails where
  main_gameplan : String
  key_synergies : List String
  card_ratios : List (String × (Int × Int))
  mana_curve : List (String × (Int × Int))
  key_cards : List String
  sideboard_focus : List String
deriving Repr, DecidableEq

/-- The `review` sub-object of the Reviewer's parsed output. -/
structure ReviewBody where
  rating : Int
  strengths : List String
  weaknesses : List String
  favorable : List String
  unfavorable : List String
deriving Repr, DecidableEq

/-- The Reviewer's parsed output (`review_results`). -/
structure ReviewResults where
  review : ReviewBody
  decision : String
  reasons : List String
deriving Repr, DecidableEq

/-- The `analysis` sub-object of the Optimizer's parsed output. -/
structure OptimizerAnalysis where
  curve_issues : List String
  color_issues : List String
  strategy_issues : List String
  sideboard_issues : List String
deriving Repr, DecidableEq

/-- The Optimizer's parsed output (`optimization_results`). -/
structure OptimizerResults where
  analysis : OptimizerAnalysis
  suggestions : OptSuggestions
deriving Repr, DecidableEq

/-- A conversation message (`state.messages`). -/
inductive Message
  | human (content : String)
  | aiStrategy (content : StrategyDetails)
  | aiSelection (content : String)
  | aiOptimizer (content : OptimizerResults)
  | aiReview (content : ReviewResults)
deriving Repr, DecidableEq

/-- `AgentState` from agent_state.py. -/
structure AgentState where
  requirements : DeckRequirements
  deck : Option DeckBase := none
  messages : List Message := []
  current_agent : String := "strategy"
  iteration : Nat := 0
  max_iterations : Nat := 5
deriving Repr, DecidableEq

/-- A hard stage failure surfaced by the orchestrator: the stage whose
handler raised, plus the raised Python exception. -/
structure StageFailure where
  stage : String
  error : PyError
deriving Repr, DecidableEq

/-- `StrategyAgent.run`, from the `json.loads(response.content)` parse on.
`resps` is the stream of generative responses available to the stage
(`resps 0` the first, `resps 1` what a retry would obtain); the source
parses exactly the first response and raises on failure. -/
def StrategyAgent.run (resps : Nat → Option StrategyDetails) (st : AgentState) :
    Except StageFailure AgentState :=
  match resps 0 with
  | none => .error { stage := "strategy", error := PyError.jsonDecodeError }
  | some sd =>
    .ok { st with
      messages := st.messages ++ [Message.aiStrategy sd]
      current_agent := "card_selector" }

/-- The persistence payload (`deck_data`) built by the Reviewer on approval. -/
structure DeckData where
  name : String
  description : ReviewBody
  format : String
  archetype : String
  colors : List String
  cards : Option DeckBase
  predicted_rating : Int
  favorable_matchups : List String
  unfavorable_matchups : List String
deriving Repr, DecidableEq

/-- `FinalReviewerAgent.run` after a successful parse of `review_results`:
increment `iteration`, force `APPROVE` once `iteration >= max_iterations`,
then route on the decision.  Returns the updated state, the returned route
string (`"end"` / `"strategy"` / `"card_selector"`), and the persistence
payload passed to `save_deck` (present exactly when the deck was saved). -/
def FinalReviewerAgent.runStep (st : AgentState) (rr : ReviewResults) :
    AgentState × String × Option DeckData :=
  let st1 := { st with iteration := st.iteration + 1 }
  let rr1 :=
    if st1.max_iterations ≤ st1.iteration then
      { rr with
        decision := "APPROVE"
        reasons := rr.reasons ++ ["Maximum iteration limit reached"] }
    else rr
  if rr1.decision = "APPROVE" then
    let dd : DeckData :=
      { name := st1.requirements.archetype ++ " " ++ String.intercalate "-" st1.requirements.colors
        description := rr1.review
        format := st1.requirements.format
        archetype := st1.requirements.archetype
        colors := st1.requirements.colors
        cards := st1.deck
        predicted_rating := rr1.review.rating
        favorable_matchups := rr1.review.favorable
        unfavorable_matchups := rr1.review.unfavorable }
    (st1, "end", some dd)
  else if rr1.decision = "REVISE_STRATEGY" then
    ({ st1 with messages := st1.messages ++ [Message.aiReview rr1] }, "strategy", none)
  else
    ({ st1 with messages := st1.messages ++ [Message.aiReview rr1] }, "card_selector", none)

/-- State at the start of the `n`-th Review pass (0-indexed), for a run whose
Reviewer decisions are `d 0, d 1, ...`.  The intermediate Strategy /
CardSelection / Optimization handlers never touch `iteration` or
`max_iterations`, so the review-pass loop is driven by `runStep` alone. -/
def reviewPassState (d : Nat → ReviewResults) (st0 : AgentState) : Nat → AgentState
  | 0 => st0
  | n + 1 => (FinalReviewerAgent.runStep (reviewPassState d st0 n) (d n)).1

/-- Route string returned by the `n`-th Review pass. -/
def reviewPassRoute (d : Nat → ReviewResults) (st0 : AgentState) (n : Nat) : String :=
  (FinalReviewerAgent.runStep (reviewPassState d st0 n) (d n)).2.1

/-- `FinalReviewerAgent.run`: the prompt assembly reads
`state.deck.model_dump()` (`AttributeError` when `deck` is `None`), then
`json.loads(response.content)` parses `review_results` (`resps 0` is the
first generative response; the source parses exactly one and raises on
failure), then the increment / forced-override / routing step `runStep`. -/
def FinalReviewerAgent.run (resps : Nat → Option ReviewResults) (st : AgentState) :
    Except StageFailure (AgentState × String × Option DeckData) :=
  match st.deck with
  | none => .error { stage := "reviewer", error := PyError.attributeError }
  | some _ =>
    match resps 0 with
    | none => .error { stage := "reviewer", error := PyError.jsonDecodeError }
    | some rr => .ok (FinalReviewerAgent.runStep st rr)

/-! ### Deck optimizer (deck_optimizer_agent.py) -/

/-- `DeckOptimizerAgent.run`.  Before the generative call the handler runs
`state.deck.validate_deck()` (raising `AttributeError` when `deck` is
`None`) and `validate_mana_base(state.deck)` — which always raises, see
`validate_mana_base` — and the prompt assembly reads
`state.deck.statistics.model_dump()` (`AttributeError` on `None`).  Only
then is the response parsed (`resps 0`); with any suggestion present the
deck is mutated and `calculate_deck_statistics` recomputed. -/
def DeckOptimizerAgent.run (resps : Nat → Option OptimizerResults) (st : AgentState) :
    Except StageFailure AgentState :=
  match st.deck with
  | none => .error { stage := "optimizer", error := PyError.attributeError }
  | some deck =>
    let _deck_issues := deck.validate_deck
    match validate_mana_base deck with
    | .error e => .error { stage := "optimizer", error := e }
    | .ok _mana_issues =>
      match deck.statistics with
      | none => .error { stage := "optimizer", error := PyError.attributeError }
      | some _ =>
        match resps 0 with
        | none => .error { stage := "optimizer", error := PyError.jsonDecodeError }
        | some r =>
          if r.suggestions.cards_to_remove ≠ [] ∨ r.suggestions.cards_to_add ≠ [] ∨
              r.suggestions.quantity_adjustments ≠ [] then
            let deck2 := apply_optimization_suggestions deck r.suggestions
            match calculate_deck_statistics deck2 with
            | .error e => .error { stage := "optimizer", error := e }
            | .ok stats2 =>
              .ok { st with
                deck := some { deck2 with statistics := some stats2 }
                messages := st.messages ++ [Message.aiOptimizer r]
                current_agent := "reviewer" }
          else
            .ok { st with
              deck := some deck
              messages := st.messages ++ [Message.aiOptimizer r]
              current_agent := "reviewer" }

/-! ### Card selector (card_selector_agent.py) -/

/-- A card record returned by `db.search_cards` (the fields read by
`_get_card_details`). -/
structure CardData where
  name : String
  mana_cost : Option String
  type_line : String
  cmc : Rat
  color_identity : List String
  oracle_text : String
deriving Repr, DecidableEq

/-- The resolved attributes `_get_card_details` returns. -/
structure CardDetails where
  mana_cost : Option ManaCost
  type_line : String
  cmc : Rat
  color_identity : List String
  oracle_text : String
deriving Repr, DecidableEq

/-- `_get_card_details`: index `[0]` of the search results (IndexError when
the repository returns nothing), then parse the mana cost when the string is
truthy (non-`None`, non-empty). -/
def get_card_details (results : List CardData) : Except PyError CardDetails :=
  match results with
  | [] => .error .indexError
  | cd :: _ =>
    let mc :=
      match cd.mana_cost with
      | some s => if s = "" then none else some (ManaCost.from_string s)
      | none => none
    .ok { mana_cost := mc
          type_line := cd.type_line
          cmc := cd.cmc
          color_identity := cd.color_identity
          oracle_text := cd.oracle_text }

/-- One entry of the Selector's parsed card list. -/
structure SelEntry where
  name : String
  quantity : Int
  role : String
deriving Repr, DecidableEq

/-- The `main_deck` partition of the Selector's parsed output. -/
structure SelMain where
  creatures : List SelEntry
  spells : List SelEntry
  other : List SelEntry
deriving Repr, DecidableEq

/-- The Selector's parsed output (`deck_list`). -/
structure SelectorDeckList where
  main_deck : SelMain
  lands : List SelEntry
  sideboard : List SelEntry
deriving Repr, DecidableEq

/-- Keyword names of each `Card(...)` construction in the Selector:
`Card(name=..., quantity=..., role=..., **self._get_card_details(...))`. -/
def selectorCardKwargs : List String :=
  ["name", "quantity", "role", "mana_cost", "type_line", "cmc", "color_identity",
   "oracle_text"]

/-- Mapped attribute names of the SQLAlchemy `Card` model the Selector
imports (`app.models.card.Card`): its columns plus the `decks`
relationship.  Note there is no `quantity` and no `role`. -/
def sqlalchemyCardAttrs : List String :=
  ["id", "name", "mana_cost", "cmc", "color_identity", "oracle_text", "type_line",
   "power", "toughness", "rarity", "set_code", "collector_number", "image_uri",
   "keywords", "legalities", "price", "vector_embedding", "layout", "card_faces",
   "back_image_uri", "scryfall_id", "oracle_id", "artist", "flavor_text",
   "released_at", "prices", "produced_mana", "edhrec_rank", "color_indicator",
   "loyalty", "hand_modifier", "life_modifier", "decks"]

/-- Mapped attribute names of the SQLAlchemy `Deck` model: columns plus the
`owner` and `cards` relationships.  Note there is no `main_deck`, `lands`,
`statistics` or `total_cards`. -/
def sqlalchemyDeckAttrs : List String :=
  ["id", "name", "format", "description", "created_at", "updated_at", "mainboard",
   "sideboard", "colors", "strategy_tags", "user_id", "owner", "cards"]

/-- SQLAlchemy's declarative constructor: raises `TypeError` at the first
keyword argument that is not a mapped attribute of the model. -/
def sqlalchemyInit (attrs kwargs : List String) : Except PyError Unit :=
  match kwargs.find? (fun k => !(attrs.contains k)) with
  | some _ => .error .typeError
  | none => .ok ()

/-- The record a `Card(...)` call of the Selector would produce if the
constructor accepted its keywords (it does not; see `buildCards`). -/
def mkSelCard (e : SelEntry) (roleStr : String) (d : CardDetails) : CardBase :=
  { name := e.name
    quantity := e.quantity
    cmc := d.cmc
    type_line := d.type_line
    color_identity := d.color_identity
    role := some roleStr
    mana_cost := d.mana_cost }

/-- Resolve and construct the cards of a list of selector entries in order.
Per entry: `_get_card_details` first (IndexError on an unresolvable name,
since the call is an argument of `Card(...)`), then the `Card(...)`
construction itself, which raises `TypeError` because `quantity` and `role`
are not attributes of the imported SQLAlchemy `Card`. -/
def buildCards (repo : String → List CardData) (roleOf : SelEntry → String) :
    List SelEntry → Except PyError (List CardBase)
  | [] => .ok []
  | e :: rest =>
    match get_card_details (repo e.name) with
    | .error err => .error err
    | .ok d =>
      match sqlalchemyInit sqlalchemyCardAttrs selectorCardKwargs with
      | .error err => .error err
      | .ok _ =>
        match buildCards repo roleOf rest with
        | .error err => .error err
        | .ok cs => .ok (mkSelCard e (roleOf e) d :: cs)

/-- All entries named by a selector deck list, in construction order
(main-deck categories, then lands, then sideboard). -/
def selAllEntries (dl : SelectorDeckList) : List SelEntry :=
  (dl.main_deck.creatures ++ dl.main_deck.spells ++ dl.main_deck.other) ++
    dl.lands ++ dl.sideboard

/-- `ai_messages` of `CardSelectorAgent.run`: the AI messages of the
conversation, in order. -/
def aiMessages (msgs : List Message) : List Message :=
  msgs.filter (fun m => match m with | .human _ => false | _ => true)

/-- `CardSelectorAgent.run`.  Context assembly first:
`json.loads(ai_messages[-1])` raises `IndexError` when there is no AI
message, and the category loop's `strategy_details["card_ratios"]` raises
`KeyError` when the last AI message is not a strategy object (a selector,
optimizer or review payload has no such key); the repository search and the
LLM call are abstracted into `repo` and the response stream `resps`.  Then
the `json.loads(response.content)` parse of `resps 0` (raising on failure),
the three card-building loops, and the `Deck(...)` constructions: the inner
`Deck(main_deck=..., lands=..., sideboard=..., total_cards=60)` — whose
keywords the SQLAlchemy `Deck` rejects — is evaluated as the argument of
`calculate_deck_statistics`, then the outer `Deck(...)`.  Any exception is
the stage's failure.  (The `.human` arm below is unreachable — `aiMessages`
never keeps human entries; were it reached, `json.loads` of the free-text
brief would raise.) -/
def CardSelectorAgent.run (repo : String → List CardData)
    (resps : Nat → Option SelectorDeckList) (st : AgentState) :
    Except StageFailure AgentState :=
  match (aiMessages st.messages).getLast? with
  | none => .error { stage := "card_selector", error := PyError.indexError }
  | some (Message.human _) =>
    .error { stage := "card_selector", error := PyError.jsonDecodeError }
  | some (Message.aiSelection _) =>
    .error { stage := "card_selector", error := PyError.keyError }
  | some (Message.aiOptimizer _) =>
    .error { stage := "card_selector", error := PyError.keyError }
  | some (Message.aiReview _) =>
    .error { stage := "card_selector", error := PyError.keyError }
  | some (Message.aiStrategy _sd) =>
  match resps 0 with
  | none => .error { stage := "card_selector", error := PyError.jsonDecodeError }
  | some dl =>
    match buildCards repo (fun e => e.role)
        (dl.main_deck.creatures ++ dl.main_deck.spells ++ dl.main_deck.other) with
    | .error err => .error { stage := "card_selector", error := err }
    | .ok main_deck =>
      match buildCards repo (fun _ => "mana_source") dl.lands with
      | .error err => .error { stage := "card_selector", error := err }
      | .ok lands =>
        match buildCards repo (fun e => e.role) dl.sideboard with
        | .error err => .error { stage := "card_selector", error := err }
        | .ok sideboard =>
          match sqlalchemyInit sqlalchemyDeckAttrs
              ["main_deck", "lands", "sideboard", "total_cards"] with
          | .error err => .error { stage := "card_selector", error := err }
          | .ok _ =>
            match calculate_deck_statistics
                { main_deck := main_deck, sideboard := sideboard, lands := lands,
                  total_cards := 60 } with
            | .error err => .error { stage := "card_selector", error := err }
            | .ok stats =>
              match sqlalchemyInit sqlalchemyDeckAttrs
                  ["main_deck", "lands", "sideboard", "statistics"] with
              | .error err => .error { stage := "card_selector", error := err }
              | .ok _ =>
                .ok { st with
                  deck := some { main_deck := main_deck, sideboard := sideboard,
                                 lands := lands, statistics := some stats,
                                 total_cards := 60 }
                  messages := st.messages ++ [Message.aiSelection "deck_list"]
                  current_agent := "optimizer" }

/-! ### Concrete workloads used by counterexamples and witnesses -/

/-- A mono-red Standard aggro requirements brief. -/
def reqsR : DeckRequirements :=
  { colors := ["R"], strategy := "aggressive burn", format := "Standard", archetype := "aggro" }

/-- Fresh workflow state for `reqsR` (iteration 0, default limit 5). -/
def st0R : AgentState := { requirements := reqsR }

/-- A Plains land entry. -/
def plainsCard : CardBase :=
  { name := "Plains", quantity := 1, cmc := 0, type_line := "Basic Land - Plains"
    color_identity := ["W"], role := some "mana_source", mana_cost := none }

/-- A one-drop white creature, 40 copies on one entry. -/
def lionsCard : CardBase :=
  { name := "Savannah Lions", quantity := 40, cmc := 1, type_line := "Creature - Cat"
    color_identity := ["W"], role := some "win_condition"
    mana_cost := some (ManaCost.from_string "\x7bW\x7d") }

/-- A red creature entry at the 4-copy limit. -/
def goblinCard : CardBase :=
  { name := "Raging Goblin", quantity := 4, cmc := 1, type_line := "Creature - Goblin"
    color_identity := ["R"], role := some "win_condition"
    mana_cost := some (ManaCost.from_string "\x7bR\x7d") }

/-- A red instant, single copy. -/
def shockCard : CardBase :=
  { name := "Shock", quantity := 1, cmc := 1, type_line := "Instant"
    color_identity := ["R"], role := some "removal"
    mana_cost := some (ManaCost.from_string "\x7bR\x7d") }

/-- All-land deck: empty `main_deck`, 24 Plains. -/
def c4deck : DeckBase :=
  { colors := ["W"], main_deck := [], lands := List.replicate 24 plainsCard }

/-- A legal deck: 60 Plains on a single basic-land entry. -/
def w5deck : DeckBase :=
  { colors := ["W"], main_deck := [], lands := [{ plainsCard with quantity := 60 }] }

/-- 56-card mainboard (14 entries of 4), 10-card sideboard. -/
def c6deck : DeckBase :=
  { colors := ["R"], main_deck := List.replicate 14 goblinCard
    sideboard := List.replicate 10 shockCard, lands := [] }

/-- Mono-white deck: one 40-copy creature entry plus 20 Plains entries. -/
def c7deck : DeckBase :=
  { colors := ["W"], main_deck := [lionsCard], lands := List.replicate 20 plainsCard }

/-- A review verdict body used by the routing scenarios. -/
def reviewBody0 : ReviewBody :=
  { rating := 6, strengths := [], weaknesses := [], favorable := [], unfavorable := [] }

/-- Reviewer verdict: needs optimization. -/
def needsOptReview : ReviewResults :=
  { review := reviewBody0, decision := "NEEDS_OPTIMIZATION", reasons := [] }

/-- Reviewer verdict: approve. -/
def approveReview : ReviewResults :=
  { review := reviewBody0, decision := "APPROVE", reasons := [] }

/-- Reviewer verdict: revise strategy. -/
def reviseReview : ReviewResults :=
  { review := reviewBody0, decision := "REVISE_STRATEGY", reasons := [] }

/-- A Reviewer that never approves. -/
def d5 : Nat → ReviewResults := fun _ => needsOptReview

/-- A parsed strategy object. -/
def sd0 : StrategyDetails :=
  { main_gameplan := "attack early", key_synergies := []
    card_ratios := [("creatures", (20, 24))], mana_curve := []
    key_cards := [], sideboard_focus := [] }

/-- Workflow state as the Selector sees it: the Strategist's output is the
last AI message. -/
def stSel : AgentState := { requirements := reqsR, messages := [Message.aiStrategy sd0] }

/-- Workflow state as the Reviewer sees it: a deck is present. -/
def stRev : AgentState := { requirements := reqsR, deck := some w5deck }

/-- Generative response stream whose first output is unparseable and whose
second parses fine. -/
def c3resps : Nat → Option StrategyDetails := fun n => if n = 0 then none else some sd0

/-- Generative response stream that never parses. -/
def w3resps : Nat → Option StrategyDetails := fun _ => none

/-- Repository record for Lightning Strike. -/
def boltData : CardData :=
  { name := "Lightning Strike", mana_cost := some "\x7b1\x7d\x7bR\x7d", type_line := "Instant"
    cmc := 2, color_identity := ["R"], oracle_text := "deal 3 damage" }

/-- Repository record for Mountain. -/
def mountainData : CardData :=
  { name := "Mountain", mana_cost := none, type_line := "Basic Land - Mountain"
    cmc := 0, color_identity := ["R"], oracle_text := "" }

/-- A card repository resolving exactly Lightning Strike and Mountain. -/
def c8repo : String → List CardData := fun n =>
  if n = "Lightning Strike" then [boltData]
  else if n = "Mountain" then [mountainData] else []

/-- Selector output whose first processed entry, "Phantom Card", is not in
the repository (main-deck categories empty, so the lands are built first). -/
def c8deckList : SelectorDeckList :=
  { main_deck := { creatures := [], spells := [], other := [] }
    lands := [⟨"Phantom Card", 4, "mana_source"⟩, ⟨"Mountain", 20, "mana_source"⟩]
    sideboard := [] }

/-- Selector output naming the unresolvable "Ghost" in the sideboard. -/
def c8deckList2 : SelectorDeckList :=
  { main_deck := { creatures := [⟨"Lightning Strike", 4, "removal"⟩], spells := [], other := [] }
    lands := [⟨"Mountain", 20, "mana_source"⟩]
    sideboard := [⟨"Ghost", 2, "utility"⟩] }

/-- Selector response stream that parses to `c8deckList`. -/
def c8resps : Nat → Option SelectorDeckList := fun _ => some c8deckList

/-- Selector response stream that parses to `c8deckList2`. -/
def c8resps2 : Nat → Option SelectorDeckList := fun _ => some c8deckList2

/-- Selector response stream that never parses. -/
def wSelResps : Nat → Option SelectorDeckList := fun _ => none

/-- Optimizer response stream that never parses. -/
def wOptResps : Nat → Option OptimizerResults := fun _ => none

/-- Reviewer response stream that never parses. -/
def wRevResps : Nat → Option ReviewResults := fun _ => none

/-- A deck holding Raging Goblin entries in both mainboard lists. -/
def w9deck : DeckBase :=
  { colors := ["R"], main_deck := [goblinCard, shockCard], lands := [goblinCard] }

/-- Conflicting optimizer suggestions: remove and re-quantify the same card. -/
def w9sugg : OptSuggestions :=
  { cards_to_remove := [{ name := "Raging Goblin", reason := "too fragile" }]
    cards_to_add := []
    quantity_adjustments := [{ name := "Raging Goblin", change := 2, reason := "more aggro" }] }

/-! ## Helper lemmas -/

theorem runStep_fst_iteration (st : AgentState) (rr : ReviewResults) :
    (FinalReviewerAgent.runStep st rr).1.iteration = st.iteration + 1 := by
  unfold FinalReviewerAgent.runStep
  dsimp only
  repeat' split
  all_goals rfl

theorem runStep_fst_max (st : AgentState) (rr : ReviewResults) :
    (FinalReviewerAgent.runStep st rr).1.max_iterations = st.max_iterations := by
  unfold FinalReviewerAgent.runStep
  dsimp only
  repeat' split
  all_goals rfl

theorem reviewPassState_iteration (d : Nat → ReviewResults) (st0 : AgentState) (n : Nat) :
    (reviewPassState d st0 n).iteration = st0.iteration + n := by
  induction n with
  | zero => rfl
  | succ k ih =>
    show (FinalReviewerAgent.runStep (reviewPassState d st0 k) (d k)).1.iteration = _
    rw [runStep_fst_iteration, ih]
    omega

theorem reviewPassState_max (d : Nat → ReviewResults) (st0 : AgentState) (n : Nat) :
    (reviewPassState d st0 n).max_iterations = st0.max_iterations := by
  induction n with
  | zero => rfl
  | succ k ih =>
    show (FinalReviewerAgent.runStep (reviewPassState d st0 k) (d k)).1.max_iterations = _
    rw [runStep_fst_max, ih]

theorem runStep_route_forced (st : AgentState) (rr : ReviewResults)
    (h : st.max_iterations ≤ st.iteration + 1) :
    (FinalReviewerAgent.runStep st rr).2.1 = "end" := by
  unfold FinalReviewerAgent.runStep
  simp [h]

theorem runStep_route_unforced (st : AgentState) (rr : ReviewResults)
    (h : ¬ st.max_iterations ≤ st.iteration + 1) :
    (FinalReviewerAgent.runStep st rr).2.1 =
      if rr.decision = "APPROVE" then "end"
      else if rr.decision = "REVISE_STRATEGY" then "strategy"
      else "card_selector" := by
  unfold FinalReviewerAgent.runStep
  simp only [h, if_false]
  split
  · simp_all
  · split <;> simp_all

theorem runStep_payload_unforced (st : AgentState) (rr : ReviewResults)
    (h : ¬ st.max_iterations ≤ st.iteration + 1) :
    (FinalReviewerAgent.runStep st rr).2.2.isSome = (rr.decision = "APPROVE" : Bool) := by
  unfold FinalReviewerAgent.runStep
  simp only [h, if_false]
  split
  · simp_all
  · split <;> simp_all

/-! ## Claim theorems -/

/-- C1: for every sequence of Reviewer decisions that never returns Approve,
the workflow still terminates within exactly `iteration_limit` Review passes:
every pass before the limit routes back into the loop, and the pass at which
the incremented iteration counter reaches `max_iterations` forces the
decision to Approve and returns the terminal `"end"` route. -/
theorem orchestrator_terminates (d : Nat → ReviewResults) (st0 : AgentState)
    (hd : ∀ n, (d n).decision ≠ "APPROVE")
    (h0 : st0.iteration = 0) (hL : 1 ≤ st0.max_iterations) :
    (∀ k, k + 1 < st0.max_iterations → reviewPassRoute d st0 k ≠ "end") ∧
    reviewPassRoute d st0 (st0.max_iterations - 1) = "end" := by
  constructor
  · intro k hk
    unfold reviewPassRoute
    have hn : ¬ (reviewPassState d st0 k).max_iterations ≤
        (reviewPassState d st0 k).iteration + 1 := by
      rw [reviewPassState_iteration, reviewPassState_max, h0]
      omega
    rw [runStep_route_unforced _ _ hn]
    have hk' := hd k
    split
    · exact absurd (by assumption) hk'
    · split <;> decide
  · unfold reviewPassRoute
    apply runStep_route_forced
    rw [reviewPassState_iteration, reviewPassState_max, h0]
    omega

/-- Witness for C1: with the default limit of 5 and a Reviewer that always
answers NeedsOptimization, pass 2 does not terminate and pass 5 (index 4)
returns the terminal route. -/
theorem orchestrator_terminates_witness :
    reviewPassRoute d5 st0R 2 ≠ "end" ∧ reviewPassRoute d5 st0R 4 = "end" := by
  have hc : needsOptReview.decision ≠ "APPROVE" := by decide
  have hd : ∀ n, (d5 n).decision ≠ "APPROVE" := fun _ => hc
  exact ⟨(orchestrator_terminates d5 st0R hd rfl (by decide)).1 2 (by decide),
    (orchestrator_terminates d5 st0R hd rfl (by decide)).2⟩

/-- C2: on a Review pass that is not forced by the iteration limit, decision
`APPROVE` returns the terminal `"end"` route with a persistence payload,
`REVISE_STRATEGY` routes to the Strategy stage, and any other decision
routes to the CardSelection stage, neither of the latter persisting. -/
theorem reviewer_routing (st : AgentState) (rr : ReviewResults)
    (h : st.iteration + 1 < st.max_iterations) :
    (rr.decision = "APPROVE" →
      (FinalReviewerAgent.runStep st rr).2.1 = "end" ∧
      (FinalReviewerAgent.runStep st rr).2.2.isSome = true) ∧
    (rr.decision = "REVISE_STRATEGY" →
      (FinalReviewerAgent.runStep st rr).2.1 = "strategy" ∧
      (FinalReviewerAgent.runStep st rr).2.2 = none) ∧
    (rr.decision ≠ "APPROVE" → rr.decision ≠ "REVISE_STRATEGY" →
      (FinalReviewerAgent.runStep st rr).2.1 = "card_selector" ∧
      (FinalReviewerAgent.runStep st rr).2.2 = none) := by
  have hn : ¬ st.max_iterations ≤ st.iteration + 1 := by omega
  refine ⟨fun ha => ?_, fun hr => ?_, fun ha hr => ?_⟩
  · constructor
    · rw [runStep_route_unforced _ _ hn, ha]
      simp
    · rw [runStep_payload_unforced _ _ hn, ha]
      simp
  · constructor
    · rw [runStep_route_unforced _ _ hn, hr]
      simp
    · unfold FinalReviewerAgent.runStep
      simp only [hn, if_false]
      rw [if_neg (by simp [hr]), if_pos (by simp [hr])]
  · constructor
    · rw [runStep_route_unforced _ _ hn]
      simp [ha, hr]
    · unfold FinalReviewerAgent.runStep
      simp only [hn, if_false]
      rw [if_neg (by simp [ha]), if_neg (by simp [hr])]

/-- Witness for C2: the three routes at a concrete unforced state. -/
theorem reviewer_routing_witness :
    (FinalReviewerAgent.runStep st0R approveReview).2.1 = "end" ∧
    (FinalReviewerAgent.runStep st0R reviseReview).2.1 = "strategy" ∧
    (FinalReviewerAgent.runStep st0R needsOptReview).2.1 = "card_selector" :=
  ⟨((reviewer_routing st0R approveReview (by decide)).1 rfl).1,
   ((reviewer_routing st0R reviseReview (by decide)).2.1 rfl).1,
   ((reviewer_routing st0R needsOptReview (by decide)).2.2 (by decide) (by decide)).1⟩

theorem calc_stats_error (deck : DeckBase) :
    calculate_deck_statistics deck = .error
      (if sumQuantities (non_land_cards deck) = 0 then PyError.zeroDivisionError
       else PyError.attributeError) := by
  simp only [calculate_deck_statistics]
  split
  · rfl
  · rename_i h
    cases hmd : deck.main_deck with
    | nil =>
      exfalso
      apply h
      unfold non_land_cards
      rw [hmd]
      rfl
    | cons c cs =>
      rfl

theorem validate_mana_base_error (deck : DeckBase) :
    validate_mana_base deck = .error
      (if sumQuantities (non_land_cards deck) = 0 then PyError.zeroDivisionError
       else PyError.attributeError) := by
  unfold validate_mana_base
  rw [calc_stats_error]

/-- C3 counterexample: the Strategist stage fails hard even though the first
generative response is unparseable and a perfectly parseable response is
available for the retry — no retry is performed, so the claimed
retry-once-then-fail policy is false. -/
theorem strategy_retry_counterexample :
    StrategyAgent.run c3resps st0R =
      .error { stage := "strategy", error := PyError.jsonDecodeError } ∧
    c3resps 1 = some sd0 :=
  ⟨rfl, rfl⟩

/-- C3 (amended): no stage handler implements the retry-once policy.  For
the Strategist, Selector and Reviewer the first unparseable generative
output escalates immediately to a hard Stage Failure naming the stage; the
Optimizer fails before even parsing a response, because its pre-parse
validation (`validate_mana_base`, or the attribute reads around it) always
raises.  In particular a single — not a second consecutive — unparseable
output at the Strategist stage yields the Stage Failure naming Strategy,
with no deck persisted. -/
theorem no_retry_any_stage :
    (∀ (resps : Nat → Option StrategyDetails) (st : AgentState), resps 0 = none →
      StrategyAgent.run resps st =
        .error { stage := "strategy", error := PyError.jsonDecodeError }) ∧
    (∀ (repo : String → List CardData) (resps : Nat → Option SelectorDeckList)
        (st : AgentState) (sd : StrategyDetails),
      (aiMessages st.messages).getLast? = some (Message.aiStrategy sd) → resps 0 = none →
      CardSelectorAgent.run repo resps st =
        .error { stage := "card_selector", error := PyError.jsonDecodeError }) ∧
    (∀ (resps : Nat → Option ReviewResults) (st : AgentState) (deck : DeckBase),
      st.deck = some deck → resps 0 = none →
      FinalReviewerAgent.run resps st =
        .error { stage := "reviewer", error := PyError.jsonDecodeError }) ∧
    (∀ (resps : Nat → Option OptimizerResults) (st : AgentState),
      ∃ e, DeckOptimizerAgent.run resps st =
          .error { stage := "optimizer", error := e } ∧
        e ≠ PyError.jsonDecodeError) := by
  refine ⟨?_, ?_, ?_, ?_⟩
  · intro resps st h
    unfold StrategyAgent.run
    rw [h]
  · intro repo resps st sd hm h
    unfold CardSelectorAgent.run
    rw [hm]
    dsimp only
    rw [h]
  · intro resps st deck hd h
    unfold FinalReviewerAgent.run
    rw [hd]
    dsimp only
    rw [h]
  · intro resps st
    unfold DeckOptimizerAgent.run
    cases hd : st.deck with
    | none => exact ⟨PyError.attributeError, rfl, by decide⟩
    | some deck =>
      dsimp only
      rw [validate_mana_base_error deck]
      by_cases hz : sumQuantities (non_land_cards deck) = 0
      · exact ⟨PyError.zeroDivisionError, by rw [if_pos hz], by decide⟩
      · exact ⟨PyError.attributeError, by rw [if_neg hz], by decide⟩

/-- Witness for C3's amended theorem: unparseable streams at each stage
and the Optimizer's pre-parse failure on a deckless state. -/
theorem no_retry_any_stage_witness :
    StrategyAgent.run w3resps st0R =
      .error { stage := "strategy", error := PyError.jsonDecodeError } ∧
    CardSelectorAgent.run c8repo wSelResps stSel =
      .error { stage := "card_selector", error := PyError.jsonDecodeError } ∧
    FinalReviewerAgent.run wRevResps stRev =
      .error { stage := "reviewer", error := PyError.jsonDecodeError } ∧
    DeckOptimizerAgent.run wOptResps st0R =
      .error { stage := "optimizer", error := PyError.attributeError } :=
  ⟨no_retry_any_stage.1 w3resps st0R rfl,
   no_retry_any_stage.2.1 c8repo wSelResps stSel sd0 rfl rfl,
   no_retry_any_stage.2.2.1 wRevResps stRev w5deck rfl rfl,
   rfl⟩

/-- C4: on a deck whose mainboard has no non-land cards (empty `main_deck`,
24 Plains), `calculate_deck_statistics` divides by the zero total quantity
of non-land cards and raises `ZeroDivisionError` — the computation is not
total, contrary to the claim. -/
theorem statistics_zero_division :
    calculate_deck_statistics c4deck = .error PyError.zeroDivisionError := by
  rfl

/-- C5: every deck with mainboard total at least 60, sideboard total at most
15, every mainboard entry limited to 4 copies or named a basic land, and all
card colors inside the declared deck colors passes `validate_deck` with an
empty issue list. -/
theorem validate_deck_empty (d : DeckBase)
    (h60 : 60 ≤ sumQuantities (d.main_deck ++ d.lands))
    (h15 : sumQuantities d.sideboard ≤ 15)
    (h4 : ∀ c ∈ d.main_deck ++ d.lands, c.quantity ≤ 4 ∨ c.name ∈ basic_lands)
    (hcol : ∀ c ∈ d.main_deck ++ d.lands ++ d.sideboard,
      ∀ x ∈ c.color_identity, x ∈ d.colors) :
    d.validate_deck = [] := by
  simp only [DeckBase.validate_deck]
  have h1 : ¬ sumQuantities (d.main_deck ++ d.lands) < 60 := by omega
  have h2 : ¬ 15 < sumQuantities d.sideboard := by omega
  have h3 : (d.main_deck ++ d.lands).filter
      (fun c => decide (4 < c.quantity) && !(basic_lands.contains c.name)) = [] := by
    rw [List.filter_eq_nil_iff]
    intro c hc
    rcases h4 c hc with hq | hn
    · simp only [Bool.and_eq_true, decide_eq_true_eq, not_and]
      intro hlt
      omega
    · simp [hn]
  rw [if_neg h1, if_neg h2, h3]
  rfl

/-- Witness for C5: a 60-Plains deck validates cleanly. -/
theorem validate_deck_empty_witness : DeckBase.validate_deck w5deck = [] :=
  validate_deck_empty w5deck (by decide) (by decide) (by decide) (by decide)

/-- C6 counterexample: a DeckArtifact with a 56-card mainboard cannot be
constructed through `DeckBase`'s validating constructor — the pydantic model
validator raises instead of leaving the check to `validate_deck` — so the
invariants are enforced by the data structure itself, contrary to the claim. -/
theorem deck_construction_rejected :
    DeckBase.validate_deck_rules c6deck =
      .error "Deck must have at least 60 cards in mainboard (currently 56)" := by
  rfl

/-- C6 (amended): on a deck value that bypasses the validating constructor
(pydantic does not re-validate on mutation), `validate_deck` on a 56-card
mainboard with a 10-card sideboard returns exactly the claimed issue list. -/
theorem validate_deck_undersized :
    DeckBase.validate_deck c6deck = ["Deck must have at least 60 cards (currently 56)"] := by
  rfl

/-- C7 counterexample: a mono-white deck with 20 white Plains land entries.
The specified by-color statistic would count 20 W sources (not below the
threshold, so the claim predicts no issue), but the statistics loop raises
`AttributeError` reading `card.colors` on the first card, so
`validate_mana_base` produces no issue list at all. -/
theorem mana_sources_counterexample :
    validate_mana_base c7deck = .error PyError.attributeError ∧
    specManaSourcesByColor c7deck "W" = 20 :=
  ⟨rfl, rfl⟩

/-- C7 (amended): the by-color mana-source statistic is never computed.
For every deck, `calculate_deck_statistics` raises — `ZeroDivisionError`
when the summed quantity of non-land main-deck cards is zero, otherwise
`AttributeError` at the `card.colors` read on the loop's first card (no
card model defines `colors`; the `role.value` read, the entry-keyed
`Counter.update` over unhashable cards and the `Dict[str, int]` validation
would fail behind it) — and `validate_mana_base` propagates the same
exception, never returning an issue list. -/
theorem mana_base_never_computes (deck : DeckBase) :
    (∀ issues : List String, validate_mana_base deck ≠ .ok issues) ∧
    validate_mana_base deck = .error
      (if sumQuantities (non_land_cards deck) = 0 then PyError.zeroDivisionError
       else PyError.attributeError) := by
  have h := validate_mana_base_error deck
  refine ⟨fun issues hok => ?_, h⟩
  rw [h] at hok
  cases hok

theorem selectorCardInit_typeError :
    sqlalchemyInit sqlalchemyCardAttrs selectorCardKwargs = .error PyError.typeError := by
  rfl

theorem buildCards_head (repo : String → List CardData) (roleOf : SelEntry → String)
    (e : SelEntry) (rest : List SelEntry) :
    buildCards repo roleOf (e :: rest) =
      .error (if repo e.name = [] then PyError.indexError else PyError.typeError) := by
  unfold buildCards
  cases hr : repo e.name with
  | nil => rfl
  | cons cd tl => rfl

/-- C8 counterexample: the Selector receives a card list whose first entry,
"Phantom Card", cannot be resolved in the repository; the stage raises
`IndexError` at the empty search result — a hard Stage Failure — instead of
omitting the entry and recording an omission. -/
theorem selector_unresolved_counterexample :
    CardSelectorAgent.run c8repo c8resps stSel =
      .error { stage := "card_selector", error := PyError.indexError } := by
  rfl

/-- C8 (amended): the Selector never implements the drop-and-record policy.
Once the generative response parses, the stage fails at its first card
entry: `IndexError` from `_get_card_details` when the repository cannot
resolve the name, and otherwise `TypeError` from the `Card(...)`
construction, whose `quantity`/`role` keywords the imported SQLAlchemy
`Card` rejects.  No entry is dropped, no omission recorded, no deck
produced. -/
theorem selector_always_fails (repo : String → List CardData)
    (resps : Nat → Option SelectorDeckList) (dl : SelectorDeckList)
    (st : AgentState) (sd : StrategyDetails) (e : SelEntry)
    (hm : (aiMessages st.messages).getLast? = some (Message.aiStrategy sd))
    (hp : resps 0 = some dl) (he : (selAllEntries dl).head? = some e) :
    CardSelectorAgent.run repo resps st =
      .error { stage := "card_selector",
               error := if repo e.name = [] then PyError.indexError
                 else PyError.typeError } := by
  unfold CardSelectorAgent.run
  rw [hm]
  dsimp only
  rw [hp]
  dsimp only
  unfold selAllEntries at he
  rcases hc : dl.main_deck.creatures ++ dl.main_deck.spells ++ dl.main_deck.other with
    _ | ⟨e0, r0⟩
  · rw [hc] at he
    rcases hl : dl.lands with _ | ⟨e1, r1⟩
    · rw [hl] at he
      rcases hs : dl.sideboard with _ | ⟨e2, r2⟩
      · rw [hs] at he
        cases he
      · rw [hs] at he
        simp only [List.nil_append, List.head?_cons] at he
        cases he
        rw [buildCards_head repo _ e r2]
        rfl
    · rw [hl] at he
      simp only [List.nil_append, List.cons_append, List.head?_cons] at he
      cases he
      rw [buildCards_head repo _ e r1]
      rfl
  · rw [hc] at he
    simp only [List.cons_append, List.head?_cons] at he
    cases he
    rw [buildCards_head repo _ e r0]

/-- Witness for C8's amended theorem: a card list whose first entry
resolves, so the stage dies at the `Card(...)` construction instead. -/
theorem selector_always_fails_witness :
    CardSelectorAgent.run c8repo c8resps2 stSel =
      .error { stage := "card_selector", error := PyError.typeError } :=
  selector_always_fails c8repo c8resps2 c8deckList2 stSel sd0
    { name := "Lightning Strike", quantity := 4, role := "removal" } rfl rfl rfl

theorem foldRemovals_mem_main (rs : List CardSuggestion) (d : DeckBase) :
    ∀ c ∈ (rs.foldl applyRemoval d).main_deck, c ∈ d.main_deck := by
  induction rs generalizing d with
  | nil => intro c hc; exact hc
  | cons r0 rest ih =>
    intro c hc
    have := ih (applyRemoval d r0) c hc
    exact List.mem_of_mem_filter this

theorem foldRemovals_mem_lands (rs : List CardSuggestion) (d : DeckBase) :
    ∀ c ∈ (rs.foldl applyRemoval d).lands, c ∈ d.lands := by
  induction rs generalizing d with
  | nil => intro c hc; exact hc
  | cons r0 rest ih =>
    intro c hc
    have := ih (applyRemoval d r0) c hc
    exact List.mem_of_mem_filter this

theorem foldRemovals_absent (rs : List CardSuggestion) (r : CardSuggestion)
    (hr : r ∈ rs) (d : DeckBase) :
    (∀ c ∈ (rs.foldl applyRemoval d).main_deck, c.name ≠ r.name) ∧
    (∀ c ∈ (rs.foldl applyRemoval d).lands, c.name ≠ r.name) := by
  induction rs generalizing d with
  | nil => cases hr
  | cons r0 rest ih =>
    rcases List.mem_cons.mp hr with h1 | h1
    · subst h1
      constructor
      · intro c hc
        have hmem := foldRemovals_mem_main rest (applyRemoval d r) c hc
        have := List.of_mem_filter hmem
        simpa using this
      · intro c hc
        have hmem := foldRemovals_mem_lands rest (applyRemoval d r) c hc
        have := List.of_mem_filter hmem
        simpa using this
    · exact ih h1 (applyRemoval d r0)

theorem applyAdjustment_absent_main (d : DeckBase) (a : QuantityAdjustment) (n : String)
    (h : ∀ c ∈ d.main_deck, c.name ≠ n) :
    ∀ c ∈ (applyAdjustment d a).main_deck, c.name ≠ n := by
  intro c hc
  rcases List.mem_map.mp hc with ⟨c0, hc0, hce⟩
  subst hce
  have := h c0 hc0
  split <;> simpa using this

theorem applyAdjustment_absent_lands (d : DeckBase) (a : QuantityAdjustment) (n : String)
    (h : ∀ c ∈ d.lands, c.name ≠ n) :
    ∀ c ∈ (applyAdjustment d a).lands, c.name ≠ n := by
  intro c hc
  rcases List.mem_map.mp hc with ⟨c0, hc0, hce⟩
  subst hce
  have := h c0 hc0
  split <;> simpa using this

theorem foldAdjust_absent_main (as : List QuantityAdjustment) (d : DeckBase) (n : String)
    (h : ∀ c ∈ d.main_deck, c.name ≠ n) :
    ∀ c ∈ (as.foldl applyAdjustment d).main_deck, c.name ≠ n := by
  induction as generalizing d with
  | nil => exact h
  | cons a rest ih => exact ih (applyAdjustment d a) (applyAdjustment_absent_main d a n h)

theorem foldAdjust_absent_lands (as : List QuantityAdjustment) (d : DeckBase) (n : String)
    (h : ∀ c ∈ d.lands, c.name ≠ n) :
    ∀ c ∈ (as.foldl applyAdjustment d).lands, c.name ≠ n := by
  induction as generalizing d with
  | nil => exact h
  | cons a rest ih => exact ih (applyAdjustment d a) (applyAdjustment_absent_lands d a n h)

theorem applyAdjustment_id (d : DeckBase) (a : QuantityAdjustment)
    (hmain : ∀ c ∈ d.main_deck, c.name ≠ a.name)
    (hlands : ∀ c ∈ d.lands, c.name ≠ a.name) :
    applyAdjustment d a = d := by
  unfold applyAdjustment
  have hm : d.main_deck.map
      (fun c => if c.name = a.name then { c with quantity := c.quantity + a.change } else c) =
      d.main_deck := by
    rw [List.map_congr_left (fun c hc => if_neg (hmain c hc)), List.map_id']
  have hl : d.lands.map
      (fun c => if c.name = a.name then { c with quantity := c.quantity + a.change } else c) =
      d.lands := by
    rw [List.map_congr_left (fun c hc => if_neg (hlands c hc)), List.map_id']
  rw [hm, hl]

theorem foldAdjust_skip (as : List QuantityAdjustment) (n : String) (d : DeckBase)
    (hmain : ∀ c ∈ d.main_deck, c.name ≠ n)
    (hlands : ∀ c ∈ d.lands, c.name ≠ n) :
    as.foldl applyAdjustment d =
      (as.filter (fun a => a.name != n)).foldl applyAdjustment d := by
  induction as generalizing d with
  | nil => rfl
  | cons a rest ih =>
    by_cases ha : a.name = n
    · have hskip : applyAdjustment d a = d := by
        apply applyAdjustment_id
        · intro c hc; rw [ha]; exact hmain c hc
        · intro c hc; rw [ha]; exact hlands c hc
      have hf : (a :: rest).filter (fun a => a.name != n) =
          rest.filter (fun a => a.name != n) := by
        simp [List.filter_cons, ha]
      rw [hf]
      show rest.foldl applyAdjustment (applyAdjustment d a) = _
      rw [hskip]
      exact ih d hmain hlands
    · have hf : (a :: rest).filter (fun a => a.name != n) =
          a :: rest.filter (fun a => a.name != n) := by
        simp [List.filter_cons, ha]
      rw [hf]
      show rest.foldl applyAdjustment (applyAdjustment d a) =
        (rest.filter (fun a => a.name != n)).foldl applyAdjustment (applyAdjustment d a)
      exact ih (applyAdjustment d a)
        (applyAdjustment_absent_main d a n hmain)
        (applyAdjustment_absent_lands d a n hlands)

/-- C9: when the Optimizer's suggestions contain both a removal and a
quantity delta naming the same card, applying the suggestions removes every
entry of that name from `main_deck` and `lands`, and — removals being
applied before quantity deltas — dropping that card's deltas leaves the
result unchanged: the removal wins. -/
theorem removal_beats_adjustment (deck : DeckBase) (s : OptSuggestions) (n : String)
    (hr : ∃ r ∈ s.cards_to_remove, r.name = n)
    (ha : ∃ a ∈ s.quantity_adjustments, a.name = n) :
    (∀ c ∈ (apply_optimization_suggestions deck s).main_deck, c.name ≠ n) ∧
    (∀ c ∈ (apply_optimization_suggestions deck s).lands, c.name ≠ n) ∧
    apply_optimization_suggestions deck s =
      apply_optimization_suggestions deck
        { s with quantity_adjustments :=
            s.quantity_adjustments.filter (fun a => a.name != n) } := by
  obtain ⟨r, hrm, hrn⟩ := hr
  have habs := foldRemovals_absent s.cards_to_remove r hrm deck
  have hmain : ∀ c ∈ (s.cards_to_remove.foldl applyRemoval deck).main_deck, c.name ≠ n := by
    intro c hc
    rw [← hrn]
    exact habs.1 c hc
  have hlands : ∀ c ∈ (s.cards_to_remove.foldl applyRemoval deck).lands, c.name ≠ n := by
    intro c hc
    rw [← hrn]
    exact habs.2 c hc
  refine ⟨?_, ?_, ?_⟩
  · exact foldAdjust_absent_main _ _ _ hmain
  · exact foldAdjust_absent_lands _ _ _ hlands
  · exact foldAdjust_skip s.quantity_adjustments n _ hmain hlands

/-- Witness for C9: removing and re-quantifying "Raging Goblin" at once
yields the same deck as the removal alone. -/
theorem removal_beats_adjustment_witness :
    apply_optimization_suggestions w9deck w9sugg =
      apply_optimization_suggestions w9deck
        { w9sugg with quantity_adjustments :=
            w9sugg.quantity_adjustments.filter (fun a => a.name != "Raging Goblin") } :=
  (removal_beats_adjustment w9deck w9sugg "Raging Goblin"
    ⟨{ name := "Raging Goblin", reason := "too fragile" }, by decide, rfl⟩
    ⟨{ name := "Raging Goblin", change := 2, reason := "more aggro" }, by decide, rfl⟩).2.2

theorem sum_indicator (cs : List Char) (hnd : cs.Nodup) (a : Char) :
    (cs.map (fun c => if a == c then (1 : Nat) else 0)).sum =
      if cs.contains a then 1 else 0 := by
  induction cs with
  | nil => rfl
  | cons c0 rest ih =>
    rcases List.nodup_cons.mp hnd with ⟨hc0, hrest⟩
    rw [List.map_cons, List.sum_cons, List.contains_cons]
    by_cases hc : a = c0
    · subst hc
      have hz : (rest.map (fun c => if a == c then (1 : Nat) else 0)).sum = 0 := by
        apply List.sum_eq_zero
        intro x hx
        rcases List.mem_map.mp hx with ⟨c, hcm, hce⟩
        have hne : (a == c) = false :=
          beq_eq_false_iff_ne.mpr (fun he => hc0 (by rw [he]; exact hcm))
        rw [← hce, hne, if_neg Bool.false_ne_true]
      rw [hz, beq_self_eq_true, Bool.true_or]
      rfl
    · have hb : (a == c0) = false := beq_eq_false_iff_ne.mpr hc
      rw [hb, if_neg Bool.false_ne_true, Bool.false_or, Nat.zero_add]
      exact ih hrest

theorem sum_map_add_nat (cs : List Char) (f g : Char → Nat) :
    (cs.map (fun c => f c + g c)).sum = (cs.map f).sum + (cs.map g).sum := by
  induction cs with
  | nil => rfl
  | cons c0 rest ih =>
    simp only [List.map_cons, List.sum_cons, ih]
    omega

theorem sum_counts (cs : List Char) (hnd : cs.Nodup) (l : List Char) :
    (cs.map (fun c => l.count c)).sum = (l.filter (fun c => cs.contains c)).length := by
  induction l with
  | nil => simp
  | cons a t ih =>
    have hcount : (cs.map (fun c => (a :: t).count c)).sum =
        (cs.map (fun c => t.count c + if a == c then 1 else 0)).sum := by
      apply congrArg
      apply List.map_congr_left
      intro c _
      rw [List.count_cons]
    rw [hcount,
      sum_map_add_nat cs (fun c => t.count c) (fun c => if a == c then 1 else 0),
      ih, sum_indicator cs hnd a]
    by_cases hmem : a ∈ cs <;>
      simp [List.filter_cons, List.contains, hmem]

/-- C10: `ManaCost.from_string` computes the generic component as the sum of
the individual decimal digit characters of the string (a multi-digit symbol
such as "\x7b12\x7d" contributes 1 + 2 = 3, not 12), and the total equals
the number of W/U/B/R/G character occurrences plus that digit sum. -/
theorem mana_cost_parsing (s : String) :
    (ManaCost.from_string s).generic = ((s.toList.filter Char.isDigit).map digitVal).sum ∧
    (ManaCost.from_string s).total =
      (s.toList.filter (fun c => manaColors.contains c)).length +
        (ManaCost.from_string s).generic ∧
    (ManaCost.from_string "\x7b12\x7d").generic = 3 := by
  refine ⟨rfl, ?_, by rfl⟩
  show ((manaColors.map (fun c => (c, s.toList.count c))).map Prod.snd).sum + _ = _ + _
  have h1 : (manaColors.map (fun c => (c, s.toList.count c))).map Prod.snd =
      manaColors.map (fun c => s.toList.count c) := by
    rw [List.map_map]
    rfl
  rw [h1, sum_counts manaColors (by decide) s.toList]
  rfl

end MTGA
